import Mathlib

/-!
Verification development for the glraster repository (src/src/main.c).

The repository ships only `main.c`; the implementations behind
`file_reader.h` and `display.h` are not present, so the file-reader and
display behaviours are modelled from the specification, while the
command-line handling, startup sequence and the frame loop are embedded
directly from `main.c`.

Bytes are modelled as `Nat`, file contents as `List Nat`, sizes and
offsets as `Nat`/`Int` with explicit conversions where the C code mixes
signed and unsigned quantities.
-/

/-- Integer clamp, mirroring `clamp(x, lo, hi) = max(lo, min(x, hi))`. -/
def clampInt (x lo hi : Int) : Int := max lo (min x hi)

/-- Modelled from the spec: the `struct file_reader` state behind
`file_reader.h` (absent from src/). `file` is the backing file's byte
contents; `file_size` is its length recorded at open time;
`buffer_capacity` is the fixed capacity of the in-memory window;
`window_offset` is the file offset of `buffer[0]`; `valid_length` is the
number of meaningful bytes in `buffer`. -/
structure FileReader where
  file : List Nat
  file_size : Nat
  buffer_capacity : Nat
  window_offset : Nat
  buffer : List Nat
  valid_length : Nat
deriving DecidableEq, Repr

/-- Modelled from the spec: the clamped target offset computed by
`tick`, `target = clamp(desired_offset, 0, file_size - buffer_capacity)`,
clamped to 0 if `file_size < buffer_capacity`. -/
def tick_target (fr : FileReader) (desired : Int) : Nat :=
  if fr.file_size < fr.buffer_capacity then 0
  else (clampInt desired 0 ((fr.file_size : Int) - (fr.buffer_capacity : Int))).toNat

/-- Modelled from the spec: `tick(desired_offset)` for the missing
`file_reader.c`. A no-op when `target == window_offset`; otherwise reads
up to `buffer_capacity` bytes at `target` and updates `window_offset`
and `valid_length`. `read_ok` is the outcome of the underlying read: on
a read failure the prior state is kept unchanged (the operation is
atomic from the caller's view). -/
def file_reader_tick (fr : FileReader) (desired : Int) (read_ok : Bool) : FileReader :=
  if tick_target fr desired = fr.window_offset then fr
  else if read_ok then
    { fr with
      window_offset := tick_target fr desired
      buffer := (fr.file.drop (tick_target fr desired)).take fr.buffer_capacity
      valid_length := ((fr.file.drop (tick_target fr desired)).take fr.buffer_capacity).length }
  else fr

/-- Modelled from the spec: `open(path, requested_buffer_size)` for the
missing `file_reader.c`, success case. A zero or negative request is
treated as the default size 512; `buffer_capacity = min(request,
file_size)`; the initial fill is equivalent to `tick(0)`. -/
def file_reader_open (file : List Nat) (requested : Int) : FileReader :=
  { file := file
    file_size := file.length
    buffer_capacity := min (if requested ≤ 0 then 512 else requested.toNat) file.length
    window_offset := 0
    buffer := file.take (min (if requested ≤ 0 then 512 else requested.toNat) file.length)
    valid_length :=
      (file.take (min (if requested ≤ 0 then 512 else requested.toNat) file.length)).length }

/-- State invariant of the reader: the recorded size is the file's
length, and `valid_length` is what the last complete fill left, namely
`min(buffer_capacity, file_size - window_offset)`. -/
def FileReader.Inv (fr : FileReader) : Prop :=
  fr.file_size = fr.file.length ∧
  fr.valid_length = min fr.buffer_capacity (fr.file_size - fr.window_offset)

instance (fr : FileReader) : Decidable fr.Inv := by
  unfold FileReader.Inv; infer_instance

theorem file_reader_open_inv (file : List Nat) (requested : Int) :
    (file_reader_open file requested).Inv := by
  constructor
  · rfl
  · simp [file_reader_open]

theorem clampInt_nonneg (x hi : Int) : 0 ≤ clampInt x 0 hi :=
  le_max_left 0 (min x hi)

theorem clampInt_le (x hi : Int) (h : 0 ≤ hi) : clampInt x 0 hi ≤ hi :=
  max_le h (min_le_right x hi)

theorem file_reader_tick_noop (fr : FileReader) (desired : Int) (ok : Bool)
    (h : tick_target fr desired = fr.window_offset) :
    file_reader_tick fr desired ok = fr := by
  unfold file_reader_tick
  rw [if_pos h]

theorem file_reader_tick_moves (fr : FileReader) (desired : Int)
    (h : tick_target fr desired ≠ fr.window_offset) :
    file_reader_tick fr desired true =
      { fr with
        window_offset := tick_target fr desired
        buffer := (fr.file.drop (tick_target fr desired)).take fr.buffer_capacity
        valid_length :=
          ((fr.file.drop (tick_target fr desired)).take fr.buffer_capacity).length } := by
  unfold file_reader_tick
  rw [if_neg h, if_pos rfl]

theorem file_reader_tick_fail (fr : FileReader) (desired : Int) :
    file_reader_tick fr desired false = fr := by
  unfold file_reader_tick
  by_cases h : tick_target fr desired = fr.window_offset
  · rw [if_pos h]
  · rw [if_neg h, if_neg (by simp)]

theorem file_reader_tick_inv (fr : FileReader) (desired : Int) (ok : Bool)
    (h : fr.Inv) : (file_reader_tick fr desired ok).Inv := by
  obtain ⟨hsz, hvl⟩ := h
  by_cases htgt : tick_target fr desired = fr.window_offset
  · rw [file_reader_tick_noop fr desired ok htgt]
    exact ⟨hsz, hvl⟩
  · cases ok with
    | false =>
        rw [file_reader_tick_fail fr desired]
        exact ⟨hsz, hvl⟩
    | true =>
        rw [file_reader_tick_moves fr desired htgt]
        refine ⟨hsz, ?_⟩
        simp [List.length_take, List.length_drop, ← hsz, Nat.min_comm]

theorem tick_target_of_le (fr : FileReader) (desired : Int)
    (h : fr.buffer_capacity ≤ fr.file_size) :
    tick_target fr desired =
      (clampInt desired 0 ((fr.file_size : Int) - (fr.buffer_capacity : Int))).toNat := by
  unfold tick_target
  rw [if_neg (not_lt.mpr h)]

theorem tick_target_of_lt (fr : FileReader) (desired : Int)
    (h : fr.file_size < fr.buffer_capacity) :
    tick_target fr desired = 0 := by
  unfold tick_target
  rw [if_pos h]

/-- C1: for a reader over a file of size `S` with buffer capacity
`B ≤ S`, after `tick(o)` (with the read succeeding) the window offset is
`clamp(o, 0, S - B)` and the valid length is `B`; for `B > S` the window
offset is `0` and the valid length is `S`. Stated for any reader state
satisfying the reader invariant (established by `open` and preserved by
`tick`). -/
theorem tick_window_clamp (fr : FileReader) (o : Int) (hinv : fr.Inv) :
    (fr.buffer_capacity ≤ fr.file_size →
      ((file_reader_tick fr o true).window_offset : Int) =
          clampInt o 0 ((fr.file_size : Int) - (fr.buffer_capacity : Int)) ∧
      (file_reader_tick fr o true).valid_length = fr.buffer_capacity) ∧
    (fr.file_size < fr.buffer_capacity →
      (file_reader_tick fr o true).window_offset = 0 ∧
      (file_reader_tick fr o true).valid_length = fr.file_size) := by
  obtain ⟨hsz, hvl⟩ := hinv
  constructor
  · intro hBS
    have hhi : (0 : Int) ≤ (fr.file_size : Int) - (fr.buffer_capacity : Int) := by omega
    have ht := tick_target_of_le fr o hBS
    have hc0 : 0 ≤ clampInt o 0 ((fr.file_size : Int) - (fr.buffer_capacity : Int)) :=
      clampInt_nonneg _ _
    have hchi : clampInt o 0 ((fr.file_size : Int) - (fr.buffer_capacity : Int)) ≤
        (fr.file_size : Int) - (fr.buffer_capacity : Int) := clampInt_le _ _ hhi
    have htN : ((tick_target fr o : Nat) : Int) =
        clampInt o 0 ((fr.file_size : Int) - (fr.buffer_capacity : Int)) := by
      rw [ht]; exact Int.toNat_of_nonneg hc0
    have hrest : fr.buffer_capacity ≤ fr.file_size - tick_target fr o := by omega
    by_cases heq : tick_target fr o = fr.window_offset
    · rw [file_reader_tick_noop fr o true heq]
      refine ⟨?_, ?_⟩
      · rw [← heq]; exact htN
      · rw [hvl, ← heq]
        exact Nat.min_eq_left hrest
    · rw [file_reader_tick_moves fr o heq]
      refine ⟨htN, ?_⟩
      simp only [List.length_take, List.length_drop, ← hsz]
      exact Nat.min_eq_left hrest
  · intro hSB
    have ht := tick_target_of_lt fr o hSB
    by_cases heq : tick_target fr o = fr.window_offset
    · rw [file_reader_tick_noop fr o true heq]
      have hoff : fr.window_offset = 0 := by omega
      refine ⟨hoff, ?_⟩
      rw [hvl, hoff]
      simp
      omega
    · rw [file_reader_tick_moves fr o heq]
      refine ⟨ht, ?_⟩
      rw [ht]
      simp only [List.length_take, List.length_drop, ← hsz]
      omega

/-- Witness for C1: a 10-byte file opened with requested size 4 gives
capacity 4; `tick(100)` clamps the window offset to 6 and keeps the
valid length at 4. -/
theorem tick_window_clamp_witness :
    (file_reader_open (List.range 10) 4).Inv ∧
    ((file_reader_tick (file_reader_open (List.range 10) 4) 100 true).window_offset : Int) =
        clampInt 100 0 (((file_reader_open (List.range 10) 4).file_size : Int) -
          ((file_reader_open (List.range 10) 4).buffer_capacity : Int)) ∧
    (file_reader_tick (file_reader_open (List.range 10) 4) 100 true).valid_length = 4 := by
  have hinv : (file_reader_open (List.range 10) 4).Inv := by decide
  have h := (tick_window_clamp (file_reader_open (List.range 10) 4) 100 hinv).1
    (by decide)
  exact ⟨hinv, h.1, h.2⟩

/-- Command-line options as delivered by the `getopt_long` loop of
`main.c` (lines 95-118): `-f` (`--file`) with its argument, `-s`
(`--size`) with its parsed `strtol` value, `-h` (`--help`), and an
unrecognized option (getopt result `?`). -/
inductive CliOpt where
  | optFile (path : String)
  | optSize (n : Int)
  | optHelp
  | optUnknown
deriving DecidableEq, Repr

/-- Mutable locals of `main` filled by the option loop: `file_path`
(initially empty) and `buffer_size` (initially `DEFAULT_BUFFER_SIZE`,
that is 512). -/
structure CliState where
  file_path : String
  buffer_size : Int
deriving DecidableEq, Repr

def initialCliState : CliState := { file_path := "", buffer_size := 512 }

/-- The option loop of `main.c`: `f` stores the path, `s` stores the
size, and both `h` and `?` print help and return `EXIT_SUCCESS`
immediately (modelled as `none`). -/
def parse_args : List CliOpt → CliState → Option CliState
  | [], st => some st
  | CliOpt.optFile p :: rest, st => parse_args rest { st with file_path := p }
  | CliOpt.optSize n :: rest, st => parse_args rest { st with buffer_size := n }
  | CliOpt.optHelp :: _, _ => none
  | CliOpt.optUnknown :: _, _ => none

/-- Observable startup actions of `main.c` in program order: printing
the usage text, printing a `[FAIL]` diagnostic to stderr, a successful
`glfwCreateWindow`, the `file_reader_init(path, size)` call, `[INFO]`
messages, and a successful `raster_display_init`. -/
inductive StartEv where
  | printHelp
  | printDiag (msg : String)
  | createWindow
  | fileReaderInit (path : String) (size : Int)
  | printInfo (msg : String)
  | displayInit
deriving DecidableEq, Repr

/-- Outcome of the startup sequence: an early `return` with an exit
code, or reaching the frame loop with the validated path and size. -/
inductive StartResult where
  | exited (code : Int)
  | running (path : String) (size : Int)
deriving DecidableEq, Repr

/-- Outcomes of the external platform calls made during startup: whether
`glfwInit`, `glfwCreateWindow`, `gl3wInit`, `file_reader_init` and
`raster_display_init` succeed, the backing file's bytes, and the window
size reported by the startup `glfwGetWindowSize` (line 156). -/
structure Env where
  glfw_init_ok : Bool
  create_window_ok : Bool
  gl3w_ok : Bool
  file_open_ok : Bool
  display_init_ok : Bool
  file : List Nat
  init_win_w : Int
  init_win_h : Int
deriving DecidableEq, Repr

/-- Startup sequence of `main` (lines 95-193), from the option loop to
`raster_display_init`, with every early `return` path: help/unknown
option exits 0; empty `file_path` exits 1 after a diagnostic and the
usage text; failed `glfwInit` exits 1; failed `glfwCreateWindow` exits 1
(no window exists); failed `gl3wInit` exits 1 (the window was already
created); failed `file_reader_init` exits 1 (the window was already
created); failed `raster_display_init` exits 1. -/
def main_startup (args : List CliOpt) (env : Env) : StartResult × List StartEv :=
  match parse_args args initialCliState with
  | none => (StartResult.exited 0, [StartEv.printHelp])
  | some st =>
    if st.file_path.length = 0 then
      (StartResult.exited 1,
       [StartEv.printDiag "[FAIL] - No input file provided", StartEv.printHelp])
    else if env.glfw_init_ok = false then
      (StartResult.exited 1, [StartEv.printDiag "[FAIL] - GLFW failed to initialize"])
    else if env.create_window_ok = false then
      (StartResult.exited 1, [StartEv.printDiag "[FAIL] - Unable to create the window"])
    else if env.gl3w_ok = false then
      (StartResult.exited 1,
       [StartEv.createWindow, StartEv.printDiag "[FAIL] - gl3w failed to initialize"])
    else if env.file_open_ok = false then
      (StartResult.exited 1,
       [StartEv.createWindow, StartEv.fileReaderInit st.file_path st.buffer_size,
        StartEv.printDiag "[FAIL] - Failed to read input file in argument"])
    else if env.display_init_ok = false then
      (StartResult.exited 1,
       [StartEv.createWindow, StartEv.fileReaderInit st.file_path st.buffer_size,
        StartEv.printInfo "[INFO] - Initially read bytes into the buffer",
        StartEv.printDiag "[FAIL] - Could not initialize raster display"])
    else
      (StartResult.running st.file_path st.buffer_size,
       [StartEv.createWindow, StartEv.fileReaderInit st.file_path st.buffer_size,
        StartEv.printInfo "[INFO] - Initially read bytes into the buffer",
        StartEv.displayInit,
        StartEv.printInfo "[INFO] - Initialized program and display"])

/-- Environment in which every external startup call succeeds. -/
def env_ok : Env :=
  { glfw_init_ok := true, create_window_ok := true, gl3w_ok := true,
    file_open_ok := true, display_init_ok := true,
    file := [10, 20, 30, 40, 50, 60, 70, 80, 90, 100],
    init_win_w := 1024, init_win_h := 768 }

/-- Environment in which `file_reader_init` fails (unopenable path) and
everything before it succeeds. -/
def env_openfail : Env := { env_ok with file_open_ok := false }

theorem parse_args_none (args : List CliOpt) (st : CliState)
    (h : CliOpt.optHelp ∈ args ∨ CliOpt.optUnknown ∈ args) :
    parse_args args st = none := by
  induction args generalizing st with
  | nil => simp at h
  | cons a rest ih =>
      cases a with
      | optFile p =>
          simp only [parse_args]
          apply ih
          rcases h with h | h
          · cases h with
            | tail _ h2 => exact Or.inl h2
          · cases h with
            | tail _ h2 => exact Or.inr h2
      | optSize n =>
          simp only [parse_args]
          apply ih
          rcases h with h | h
          · cases h with
            | tail _ h2 => exact Or.inl h2
          · cases h with
            | tail _ h2 => exact Or.inr h2
      | optHelp => simp [parse_args]
      | optUnknown => simp [parse_args]

theorem parse_args_no_size (args : List CliOpt) (st : CliState)
    (h : ∀ n, CliOpt.optSize n ∉ args) :
    parse_args args st = none ∨
    ∃ p, parse_args args st = some { file_path := p, buffer_size := st.buffer_size } := by
  induction args generalizing st with
  | nil => exact Or.inr ⟨st.file_path, rfl⟩
  | cons a rest ih =>
      cases a with
      | optFile p =>
          simp only [parse_args]
          exact ih { st with file_path := p }
            (fun n hn => h n (List.mem_cons_of_mem _ hn))
      | optSize n => exact absurd (List.mem_cons_self _ _) (h n)
      | optHelp => exact Or.inl rfl
      | optUnknown => exact Or.inl rfl

theorem parse_args_keeps_path (args : List CliOpt) (st : CliState)
    (hh : CliOpt.optHelp ∉ args) (hu : CliOpt.optUnknown ∉ args)
    (hf : ∀ p, CliOpt.optFile p ∉ args) :
    ∃ b, parse_args args st = some { file_path := st.file_path, buffer_size := b } := by
  induction args generalizing st with
  | nil => exact ⟨st.buffer_size, rfl⟩
  | cons a rest ih =>
      cases a with
      | optFile p => exact absurd (List.mem_cons_self _ _) (hf p)
      | optSize n =>
          simp only [parse_args]
          exact ih { st with buffer_size := n }
            (fun h2 => hh (List.mem_cons_of_mem _ h2))
            (fun h2 => hu (List.mem_cons_of_mem _ h2))
            (fun p h2 => hf p (List.mem_cons_of_mem _ h2))
      | optHelp => exact absurd (List.mem_cons_self _ _) hh
      | optUnknown => exact absurd (List.mem_cons_self _ _) hu

/-- C5: any invocation containing `-h` or `--help` prints the usage text
and exits with code 0, with no file open and no window setup. -/
theorem help_exits_zero (args : List CliOpt) (env : Env)
    (h : CliOpt.optHelp ∈ args) :
    (main_startup args env).1 = StartResult.exited 0 ∧
    StartEv.printHelp ∈ (main_startup args env).2 ∧
    (∀ p s, StartEv.fileReaderInit p s ∉ (main_startup args env).2) ∧
    StartEv.createWindow ∉ (main_startup args env).2 := by
  have he : main_startup args env = (StartResult.exited 0, [StartEv.printHelp]) := by
    unfold main_startup
    rw [parse_args_none args initialCliState (Or.inl h)]
  rw [he]
  refine ⟨rfl, by simp, ?_, by simp⟩
  intro p s
  simp

/-- Witness for C5: `glraster --help` exits 0 and creates no window. -/
theorem help_exits_zero_witness :
    (main_startup [CliOpt.optHelp] env_ok).1 = StartResult.exited 0 ∧
    StartEv.createWindow ∉ (main_startup [CliOpt.optHelp] env_ok).2 := by
  have h := help_exits_zero [CliOpt.optHelp] env_ok (by simp)
  exact ⟨h.1, h.2.2.2⟩

/-- C9: any invocation containing an unrecognized option takes the same
`case h: case EXIT_SUCCESS` path as `--help` in `main.c` line 114: it
prints the usage text and exits 0, with no file open and no window
setup. -/
theorem unknown_option_exits_zero (args : List CliOpt) (env : Env)
    (h : CliOpt.optUnknown ∈ args) :
    main_startup args env = (StartResult.exited 0, [StartEv.printHelp]) ∧
    (∀ p s, StartEv.fileReaderInit p s ∉ (main_startup args env).2) ∧
    StartEv.createWindow ∉ (main_startup args env).2 := by
  have he : main_startup args env = (StartResult.exited 0, [StartEv.printHelp]) := by
    unfold main_startup
    rw [parse_args_none args initialCliState (Or.inr h)]
  rw [he]
  refine ⟨rfl, ?_, by simp⟩
  intro p s
  simp

/-- Witness for C9: `glraster --bogus` exits 0 with exactly the help
output. -/
theorem unknown_option_exits_zero_witness :
    main_startup [CliOpt.optUnknown] env_ok = (StartResult.exited 0, [StartEv.printHelp]) := by
  exact (unknown_option_exits_zero [CliOpt.optUnknown] env_ok (by simp)).1

/-- Counterexample to C4 as stated: the invocation `glraster --bogus`
contains no `--file` option and no help request, yet the process exits
with code 0 (the unrecognized-option case shares the `--help` path),
not 1. -/
theorem no_file_exits_one_counterexample :
    (∀ p, CliOpt.optFile p ∉ [CliOpt.optUnknown]) ∧
    CliOpt.optHelp ∉ [CliOpt.optUnknown] ∧
    (main_startup [CliOpt.optUnknown] env_ok).1 = StartResult.exited 0 ∧
    (main_startup [CliOpt.optUnknown] env_ok).1 ≠ StartResult.exited 1 := by
  refine ⟨?_, by decide, rfl, by decide⟩
  intro p hp
  simp at hp

/-- C4 (amended): any invocation whose arguments contain no `--file`
option, no help request, and no unrecognized option prints a diagnostic
and exits with code 1, without opening any file or creating any
window. -/
theorem no_file_exits_one (args : List CliOpt) (env : Env)
    (hf : ∀ p, CliOpt.optFile p ∉ args)
    (hh : CliOpt.optHelp ∉ args)
    (hu : CliOpt.optUnknown ∉ args) :
    (main_startup args env).1 = StartResult.exited 1 ∧
    StartEv.printDiag "[FAIL] - No input file provided" ∈ (main_startup args env).2 ∧
    (∀ p s, StartEv.fileReaderInit p s ∉ (main_startup args env).2) ∧
    StartEv.createWindow ∉ (main_startup args env).2 := by
  obtain ⟨b, hb⟩ := parse_args_keeps_path args initialCliState hh hu hf
  have he : main_startup args env =
      (StartResult.exited 1,
       [StartEv.printDiag "[FAIL] - No input file provided", StartEv.printHelp]) := by
    unfold main_startup
    rw [hb]
    simp [initialCliState]
  rw [he]
  refine ⟨rfl, by simp, ?_, by simp⟩
  intro p s
  simp

/-- Witness for C4 (amended): `glraster -s 7` (no file argument) exits 1
after the missing-file diagnostic, with no file open and no window. -/
theorem no_file_exits_one_witness :
    (main_startup [CliOpt.optSize 7] env_ok).1 = StartResult.exited 1 ∧
    StartEv.createWindow ∉ (main_startup [CliOpt.optSize 7] env_ok).2 := by
  have h := no_file_exits_one [CliOpt.optSize 7] env_ok
    (by intro p hp; simp at hp) (by simp) (by simp)
  exact ⟨h.1, h.2.2.2⟩

/-- Counterexample to C3 as stated: with `--file data.bin` pointing to
an unopenable path (and the platform calls succeeding), the process does
exit 1 and print a diagnostic, but a window HAS been created:
`glfwCreateWindow` (line 146) runs before `file_reader_init`
(line 175). -/
theorem open_fail_no_window_counterexample :
    (main_startup [CliOpt.optFile "data.bin"] env_openfail).1 = StartResult.exited 1 ∧
    StartEv.printDiag "[FAIL] - Failed to read input file in argument" ∈
      (main_startup [CliOpt.optFile "data.bin"] env_openfail).2 ∧
    StartEv.createWindow ∈ (main_startup [CliOpt.optFile "data.bin"] env_openfail).2 := by
  decide

/-- C3 (amended): for every invocation whose `--file` path cannot be
opened (with the platform startup calls succeeding, as the claim's
scenario assumes), the process exits with code 1 and prints a
diagnostic; however a window has already been created, since window
creation precedes the file open in `main`. -/
theorem open_fail_exits_one (args : List CliOpt) (env : Env) (st : CliState)
    (hp : parse_args args initialCliState = some st)
    (hlen : st.file_path.length ≠ 0)
    (hglfw : env.glfw_init_ok = true)
    (hwin : env.create_window_ok = true)
    (hgl3w : env.gl3w_ok = true)
    (hopen : env.file_open_ok = false) :
    (main_startup args env).1 = StartResult.exited 1 ∧
    StartEv.printDiag "[FAIL] - Failed to read input file in argument" ∈
      (main_startup args env).2 ∧
    StartEv.createWindow ∈ (main_startup args env).2 := by
  have he : main_startup args env =
      (StartResult.exited 1,
       [StartEv.createWindow, StartEv.fileReaderInit st.file_path st.buffer_size,
        StartEv.printDiag "[FAIL] - Failed to read input file in argument"]) := by
    unfold main_startup
    rw [hp]
    simp [hlen, hglfw, hwin, hgl3w, hopen]
  rw [he]
  exact ⟨rfl, by simp, by simp⟩

/-- Witness for C3 (amended): `glraster --file data.bin` with the open
failing exits 1 with the file diagnostic. -/
theorem open_fail_exits_one_witness :
    (main_startup [CliOpt.optFile "data.bin"] env_openfail).1 = StartResult.exited 1 ∧
    StartEv.printDiag "[FAIL] - Failed to read input file in argument" ∈
      (main_startup [CliOpt.optFile "data.bin"] env_openfail).2 := by
  have h := open_fail_exits_one [CliOpt.optFile "data.bin"] env_openfail
    { file_path := "data.bin", buffer_size := 512 }
    (by decide) (by decide) (by decide) (by decide) (by decide) (by decide)
  exact ⟨h.1, h.2.1⟩

/-- C6: for every invocation that omits `-s`, whenever `main` calls
`file_reader_init`, the requested buffer size it passes is
`DEFAULT_BUFFER_SIZE`, that is 512. -/
theorem default_buffer_size (args : List CliOpt) (env : Env)
    (h : ∀ n, CliOpt.optSize n ∉ args) :
    ∀ p s, StartEv.fileReaderInit p s ∈ (main_startup args env).2 → s = 512 := by
  intro p s hmem
  rcases parse_args_no_size args initialCliState h with hn | ⟨q, hq⟩
  · unfold main_startup at hmem
    rw [hn] at hmem
    simp at hmem
  · unfold main_startup at hmem
    rw [hq] at hmem
    simp only [initialCliState] at hmem
    obtain ⟨g, w, l, f, d, fl, iw, ihh⟩ := env
    by_cases h1 : q.length = 0 <;>
      cases g <;> cases w <;> cases l <;> cases f <;> cases d <;>
      simp_all

/-- Witness for C6: `glraster -f a` calls `file_reader_init` with size
512. -/
theorem default_buffer_size_witness :
    StartEv.fileReaderInit "a" 512 ∈ (main_startup [CliOpt.optFile "a"] env_ok).2 ∧
    (512 : Int) = 512 := by
  refine ⟨by decide, ?_⟩
  exact default_buffer_size [CliOpt.optFile "a"] env_ok
    (by intro n hn; simp at hn) "a" 512 (by decide)

/-- Observable actions of one pass of the frame loop of `main.c`
(lines 195-227) and of the shutdown code after it (lines 229-238), in
program order, carrying the data each call sees. -/
inductive Ev where
  | pollEvents
  | newFrame
  | setDims (w h : Int)
  | drawDialog
  | tick (offset : Int)
  | draw (buffer : List Nat) (w h : Int)
  | queryWindowSize (w h : Int)
  | render (w h : Int)
  | nkRender
  | swapBuffers
  | checkInterrupt (flag : Bool)
  | printInfo (msg : String)
  | displayFree
  | nkShutdown
  | glfwTerminate
  | fileReaderFree
deriving DecidableEq, Repr

/-- External inputs of the frame loop, per frame index: the scroll
offset the dialog leaves in `display->file_offset`, the window size
reported by `glfwGetWindowSize` (line 212), the value of the
`interrupt_flag` at the line-222 check, the `glfwWindowShouldClose`
result at the loop head, and whether the read inside
`file_reader_tick` succeeds. -/
structure LoopInputs where
  ui_offset : Nat → Int
  win_size : Nat → Int × Int
  interrupt : Nat → Bool
  should_close : Nat → Bool
  read_ok : Nat → Bool

/-- Mutable state threaded through the frame loop: the `window_w`,
`window_h` locals of `main`, the display's `w`, `h` and `file_offset`
fields, and the file reader. -/
structure LoopState where
  window_w : Int
  window_h : Int
  display_w : Int
  display_h : Int
  display_file_offset : Int
  reader : FileReader
deriving DecidableEq, Repr

/-- One iteration of the `while (!glfwWindowShouldClose(window))` body
(lines 197-226): poll events, new frame, `display->w = window_w;
display->h = window_h`, the dialog (which leaves the scroll offset in
`display->file_offset`), `file_reader_tick(reader,
display->file_offset)`, `raster_display_draw(display, reader->buffer)`,
`glfwGetWindowSize(window, &window_w, &window_h)`,
`raster_display_render(display)`, the nuklear render, the buffer swap,
and the `interrupt_flag` check. Returns the events in program order and
the updated state. -/
def frame_body (inp : LoopInputs) (k : Nat) (s : LoopState) : List Ev × LoopState :=
  ([Ev.pollEvents, Ev.newFrame, Ev.setDims s.window_w s.window_h, Ev.drawDialog,
    Ev.tick (inp.ui_offset k),
    Ev.draw (file_reader_tick s.reader (inp.ui_offset k) (inp.read_ok k)).buffer
      s.window_w s.window_h,
    Ev.queryWindowSize (inp.win_size k).1 (inp.win_size k).2,
    Ev.render s.window_w s.window_h,
    Ev.nkRender, Ev.swapBuffers, Ev.checkInterrupt (inp.interrupt k)],
   { window_w := (inp.win_size k).1
     window_h := (inp.win_size k).2
     display_w := s.window_w
     display_h := s.window_h
     display_file_offset := inp.ui_offset k
     reader := file_reader_tick s.reader (inp.ui_offset k) (inp.read_ok k) })

/-- The frame loop itself, bounded by `fuel` iterations, starting at
frame index `k`: stops when `glfwWindowShouldClose` is set at the loop
head, or via `break` right after a frame in which the line-222
`interrupt_flag` check fires (printing the CTRL-C message first). -/
def run_loop (inp : LoopInputs) : Nat → Nat → LoopState → List Ev × LoopState
  | 0, _, s => ([], s)
  | fuel + 1, k, s =>
    if inp.should_close k then ([], s)
    else
      let r := frame_body inp k s
      if inp.interrupt k then
        (r.1 ++ [Ev.printInfo "[INFO] - CTRL-C detected..."], r.2)
      else
        let rest := run_loop inp fuel (k + 1) r.2
        (r.1 ++ rest.1, rest.2)

/-- Exactly `m` consecutive frame-loop iterations starting at frame
index `k`, ignoring the exit conditions: the reference trace that
`run_loop` produces while neither exit condition fires. -/
def run_frames (inp : LoopInputs) : Nat → Nat → LoopState → List Ev × LoopState
  | 0, _, s => ([], s)
  | m + 1, k, s =>
    let r := frame_body inp k s
    let rest := run_frames inp m (k + 1) r.2
    (r.1 ++ rest.1, rest.2)

/-- Shutdown sequence after the loop (lines 229-238):
`raster_display_free`, `nk_glfw3_shutdown`, `glfwTerminate`,
`file_reader_free`, final message. -/
def shutdown_events : List Ev :=
  [Ev.displayFree, Ev.nkShutdown, Ev.glfwTerminate, Ev.fileReaderFree,
   Ev.printInfo "[INFO] - Closed the program successfully"]

/-- Loop state right before the first iteration: `window_w`, `window_h`
hold the values of the startup `glfwGetWindowSize` (line 156), the
display was initialized with those same dimensions (line 185), and the
reader was just opened on the file with the requested size. -/
def init_loop_state (env : Env) (size : Int) : LoopState :=
  { window_w := env.init_win_w
    window_h := env.init_win_h
    display_w := env.init_win_w
    display_h := env.init_win_h
    display_file_offset := 0
    reader := file_reader_open env.file size }

/-- The whole program: the startup sequence, then (if startup reached
the loop) the frame loop followed by the shutdown sequence, returning
`EXIT_SUCCESS`. -/
def glraster_main (args : List CliOpt) (env : Env) (inp : LoopInputs) (fuel : Nat) :
    Int × List StartEv × List Ev :=
  match main_startup args env with
  | (StartResult.exited c, sevs) => (c, sevs, [])
  | (StartResult.running _ size, sevs) =>
      (0, sevs, (run_loop inp fuel 0 (init_loop_state env size)).1 ++ shutdown_events)

/-- Test for the `file_reader_tick` event. -/
def isTick : Ev → Bool
  | Ev.tick _ => true
  | _ => false

/-- Test for the `raster_display_draw` event. -/
def isDraw : Ev → Bool
  | Ev.draw _ _ _ => true
  | _ => false

/-- Test for the `raster_display_render` event. -/
def isRender : Ev → Bool
  | Ev.render _ _ => true
  | _ => false

/-- Test for the `interrupt_flag` poll. -/
def isCheckInterrupt : Ev → Bool
  | Ev.checkInterrupt _ => true
  | _ => false

/-- Events that can mutate the reader's buffer: only the tick (the read
into `buffer`) and freeing the reader. -/
def mutatesReaderBuffer : Ev → Bool
  | Ev.tick _ => true
  | Ev.fileReaderFree => true
  | _ => false

/-- C2: in every frame-loop iteration, `file_reader_tick` is invoked
before `raster_display_draw`, which is invoked before
`raster_display_render`; each occurs exactly once per iteration; the
draw observes exactly the buffer left by that same iteration's tick;
and no buffer-mutating event lies between the tick and the draw. -/
theorem tick_before_draw_before_render (inp : LoopInputs) (k : Nat) (s : LoopState) :
    ∃ (i j l : Nat),
      i < j ∧ j < l ∧
      (frame_body inp k s).1[i]? = some (Ev.tick (inp.ui_offset k)) ∧
      (frame_body inp k s).1[j]? =
        some (Ev.draw (file_reader_tick s.reader (inp.ui_offset k) (inp.read_ok k)).buffer
          s.window_w s.window_h) ∧
      (frame_body inp k s).1[l]? = some (Ev.render s.window_w s.window_h) ∧
      (∀ (m : Nat) (e : Ev), i < m → m < j → (frame_body inp k s).1[m]? = some e →
        mutatesReaderBuffer e = false) ∧
      ((frame_body inp k s).1.countP isTick = 1 ∧
       (frame_body inp k s).1.countP isDraw = 1 ∧
       (frame_body inp k s).1.countP isRender = 1) := by
  refine ⟨4, 5, 7, by omega, by omega, rfl, rfl, rfl, ?_, rfl, rfl, rfl⟩
  intro m e h1 h2 _
  omega

theorem run_loop_step_continue (inp : LoopInputs) (k : Nat) (s : LoopState) (fuel : Nat)
    (hsc : inp.should_close k = false) (hic : inp.interrupt k = false) :
    run_loop inp (fuel + 1) k s =
      ((frame_body inp k s).1 ++ (run_loop inp fuel (k + 1) (frame_body inp k s).2).1,
       (run_loop inp fuel (k + 1) (frame_body inp k s).2).2) := by
  simp [run_loop, hsc, hic]

theorem run_loop_step_interrupt (inp : LoopInputs) (k : Nat) (s : LoopState) (fuel : Nat)
    (hsc : inp.should_close k = false) (hic : inp.interrupt k = true) :
    run_loop inp (fuel + 1) k s =
      ((frame_body inp k s).1 ++ [Ev.printInfo "[INFO] - CTRL-C detected..."],
       (frame_body inp k s).2) := by
  simp [run_loop, hsc, hic]

/-- C7: a failing read inside `file_reader_tick` at frame `k` leaves the
reader (hence its buffer) unchanged, the same iteration's
`raster_display_draw` still runs with that retained buffer, and the loop
still proceeds to the next iteration exactly as it would have (the
`tick` result is never consulted by the loop's exit conditions). -/
theorem tick_failure_nonfatal (inp : LoopInputs) (k : Nat) (s : LoopState) (fuel : Nat)
    (hread : inp.read_ok k = false)
    (hsc : inp.should_close k = false)
    (hic : inp.interrupt k = false) :
    (frame_body inp k s).2.reader = s.reader ∧
    (frame_body inp k s).1[5]? = some (Ev.draw s.reader.buffer s.window_w s.window_h) ∧
    (run_loop inp (fuel + 1) k s).1 =
      (frame_body inp k s).1 ++ (run_loop inp fuel (k + 1) (frame_body inp k s).2).1 := by
  have htf : file_reader_tick s.reader (inp.ui_offset k) (inp.read_ok k) = s.reader := by
    rw [hread]
    exact file_reader_tick_fail _ _
  refine ⟨?_, ?_, ?_⟩
  · simp [frame_body, htf]
  · simp [frame_body, htf]
  · rw [run_loop_step_continue inp k s fuel hsc hic]

/-- Frame-loop inputs for the C7 witness: the read fails every frame,
nothing interrupts or closes the window. -/
def inp_readfail : LoopInputs :=
  { ui_offset := fun _ => 3
    win_size := fun _ => (800, 600)
    interrupt := fun _ => false
    should_close := fun _ => false
    read_ok := fun _ => false }

/-- Witness for C7: with the read failing in frame 0, the reader is
unchanged and the draw still happens with the retained buffer. -/
theorem tick_failure_nonfatal_witness :
    (frame_body inp_readfail 0 (init_loop_state env_ok 4)).2.reader =
      (init_loop_state env_ok 4).reader ∧
    (frame_body inp_readfail 0 (init_loop_state env_ok 4)).1[5]? =
      some (Ev.draw (init_loop_state env_ok 4).reader.buffer
        (init_loop_state env_ok 4).window_w (init_loop_state env_ok 4).window_h) := by
  have h := tick_failure_nonfatal inp_readfail 0 (init_loop_state env_ok 4) 0 rfl rfl rfl
  exact ⟨h.1, h.2.1⟩

theorem run_loop_frames (inp : LoopInputs) (m : Nat) :
    ∀ (j : Nat) (s : LoopState) (fuel : Nat),
      (∀ i, i < m → inp.should_close (j + i) = false ∧ inp.interrupt (j + i) = false) →
      m ≤ fuel →
      run_loop inp fuel j s =
        ((run_frames inp m j s).1 ++
           (run_loop inp (fuel - m) (j + m) (run_frames inp m j s).2).1,
         (run_loop inp (fuel - m) (j + m) (run_frames inp m j s).2).2) := by
  induction m with
  | zero =>
      intro j s fuel _ _
      simp [run_frames]
  | succ m ih =>
      intro j s fuel h hle
      obtain ⟨f2, rfl⟩ : ∃ f2, fuel = f2 + 1 := ⟨fuel - 1, by omega⟩
      have h0 := h 0 (by omega)
      simp only [Nat.add_zero] at h0
      rw [run_loop_step_continue inp j s f2 h0.1 h0.2]
      have hrec := ih (j + 1) (frame_body inp j s).2 f2
        (fun i hi => by
          have := h (i + 1) (by omega)
          have e : j + (i + 1) = j + 1 + i := by omega
          rw [e] at this
          exact this)
        (by omega)
      rw [hrec]
      have e1 : f2 + 1 - (m + 1) = f2 - m := by omega
      have e2 : j + (m + 1) = j + 1 + m := by omega
      have e3 : run_frames inp (m + 1) j s =
          ((frame_body inp j s).1 ++ (run_frames inp m (j + 1) (frame_body inp j s).2).1,
           (run_frames inp m (j + 1) (frame_body inp j s).2).2) := by
        simp [run_frames]
      rw [e1, e2, e3]
      simp [List.append_assoc]

theorem frame_body_no_free (inp : LoopInputs) (j : Nat) (s : LoopState) :
    (frame_body inp j s).1.count Ev.fileReaderFree = 0 := by
  simp [frame_body, List.count_cons]

theorem run_frames_no_free (inp : LoopInputs) (m : Nat) :
    ∀ (j : Nat) (s : LoopState), (run_frames inp m j s).1.count Ev.fileReaderFree = 0 := by
  induction m with
  | zero => intro j s; rfl
  | succ m ih =>
      intro j s
      simp [run_frames, List.count_append, frame_body_no_free, ih]

/-- C8: with `glfwWindowShouldClose` never set and the interrupt flag
first observed set at frame `k`, the loop emits frames `0..k` in full
(the flag is polled exactly once per iteration, at position 10 of the
iteration's 11 events, after the render at position 7), then breaks
after frame `k`; the shutdown sequence frees the file reader exactly
once across the whole trace, and the process exits with status 0. -/
theorem interrupt_clean_exit (args : List CliOpt) (env : Env) (inp : LoopInputs)
    (fuel k : Nat) (p : String) (size : Int) (sevs : List StartEv)
    (hstart : main_startup args env = (StartResult.running p size, sevs))
    (hpre : ∀ i, i < k → inp.should_close i = false ∧ inp.interrupt i = false)
    (hsc : inp.should_close k = false)
    (hic : inp.interrupt k = true)
    (hfuel : k < fuel) :
    (glraster_main args env inp fuel).1 = 0 ∧
    (glraster_main args env inp fuel).2.2 =
      (run_frames inp k 0 (init_loop_state env size)).1 ++
        (frame_body inp k (run_frames inp k 0 (init_loop_state env size)).2).1 ++
        [Ev.printInfo "[INFO] - CTRL-C detected..."] ++ shutdown_events ∧
    (glraster_main args env inp fuel).2.2.count Ev.fileReaderFree = 1 ∧
    (∀ (j : Nat) (s : LoopState),
      (frame_body inp j s).1.countP isCheckInterrupt = 1 ∧
      (frame_body inp j s).1[10]? = some (Ev.checkInterrupt (inp.interrupt j)) ∧
      (frame_body inp j s).1[7]? = some (Ev.render s.window_w s.window_h)) := by
  have hmain : glraster_main args env inp fuel =
      (0, sevs, (run_loop inp fuel 0 (init_loop_state env size)).1 ++ shutdown_events) := by
    unfold glraster_main
    rw [hstart]
  have hrl := run_loop_frames inp k 0 (init_loop_state env size) fuel
    (fun i hi => by simpa using hpre i hi) (by omega)
  obtain ⟨f2, hf2⟩ : ∃ f2, fuel - k = f2 + 1 := ⟨fuel - k - 1, by omega⟩
  rw [hf2] at hrl
  simp only [Nat.zero_add] at hrl
  rw [run_loop_step_interrupt inp k _ f2 hsc hic] at hrl
  have htrace : (glraster_main args env inp fuel).2.2 =
      (run_frames inp k 0 (init_loop_state env size)).1 ++
        (frame_body inp k (run_frames inp k 0 (init_loop_state env size)).2).1 ++
        [Ev.printInfo "[INFO] - CTRL-C detected..."] ++ shutdown_events := by
    rw [hmain]
    simp only [hrl]
    simp [List.append_assoc]
  refine ⟨by rw [hmain], htrace, ?_, ?_⟩
  · rw [htrace]
    simp [List.count_append, run_frames_no_free, frame_body_no_free,
      shutdown_events, List.count_cons]
  · intro j s
    exact ⟨rfl, rfl, rfl⟩

/-- Frame-loop inputs for the C8 witness: the interrupt flag is already
set at frame 0 and the window never asks to close. -/
def inp_interrupted : LoopInputs :=
  { ui_offset := fun _ => 0
    win_size := fun _ => (640, 480)
    interrupt := fun _ => true
    should_close := fun _ => false
    read_ok := fun _ => true }

/-- Witness for C8: a run interrupted in its first frame exits with
status 0 and frees the file reader exactly once. -/
theorem interrupt_clean_exit_witness :
    (glraster_main [CliOpt.optFile "a"] env_ok inp_interrupted 1).1 = 0 ∧
    (glraster_main [CliOpt.optFile "a"] env_ok inp_interrupted 1).2.2.count
      Ev.fileReaderFree = 1 := by
  have h := interrupt_clean_exit [CliOpt.optFile "a"] env_ok inp_interrupted 1 0 "a" 512
    [StartEv.createWindow, StartEv.fileReaderInit "a" 512,
     StartEv.printInfo "[INFO] - Initially read bytes into the buffer",
     StartEv.displayInit,
     StartEv.printInfo "[INFO] - Initialized program and display"]
    (by decide) (fun i hi => by omega) rfl rfl (by omega)
  exact ⟨h.1, h.2.2.1⟩

theorem run_frames_window_dims (inp : LoopInputs) (m : Nat) :
    ∀ (j : Nat) (s : LoopState), 0 < m →
      ((run_frames inp m j s).2.window_w, (run_frames inp m j s).2.window_h) =
        inp.win_size (j + m - 1) := by
  induction m with
  | zero => intro j s h; omega
  | succ m ih =>
      intro j s _
      cases Nat.eq_zero_or_pos m with
      | inl h0 =>
          subst h0
          simp [run_frames, frame_body]
      | inr hpos =>
          simp only [run_frames]
          have hrec := ih (j + 1) (frame_body inp j s).2 hpos
          have e : j + 1 + m - 1 = j + (m + 1) - 1 := by omega
          rw [e] at hrec
          exact hrec

/-- C10: in frame-loop iteration `k`, the dimensions assigned to the
display (`display->w = window_w; display->h = window_h`, lines 200-201)
before drawing — and used by that iteration's draw — are the window
dimensions queried by `glfwGetWindowSize` during iteration `k - 1`
(line 212, which runs after that iteration's draw at line 209) when
`k > 0`, and the dimensions queried once at startup (line 156) when
`k = 0`; and iteration `k` does occur in the run's trace at its expected
position. -/
theorem viewport_dims_lag_one (args : List CliOpt) (env : Env) (inp : LoopInputs)
    (fuel k : Nat) (p : String) (size : Int) (sevs : List StartEv)
    (hstart : main_startup args env = (StartResult.running p size, sevs))
    (hpre : ∀ i, i < k → inp.should_close i = false ∧ inp.interrupt i = false)
    (hsc : inp.should_close k = false)
    (hfuel : k < fuel) :
    (((run_frames inp k 0 (init_loop_state env size)).2.window_w,
      (run_frames inp k 0 (init_loop_state env size)).2.window_h) =
        if k = 0 then (env.init_win_w, env.init_win_h) else inp.win_size (k - 1)) ∧
    (frame_body inp k (run_frames inp k 0 (init_loop_state env size)).2).1[2]? =
      some (Ev.setDims (run_frames inp k 0 (init_loop_state env size)).2.window_w
        (run_frames inp k 0 (init_loop_state env size)).2.window_h) ∧
    (frame_body inp k (run_frames inp k 0 (init_loop_state env size)).2).1[5]? =
      some (Ev.draw
        (file_reader_tick (run_frames inp k 0 (init_loop_state env size)).2.reader
          (inp.ui_offset k) (inp.read_ok k)).buffer
        (run_frames inp k 0 (init_loop_state env size)).2.window_w
        (run_frames inp k 0 (init_loop_state env size)).2.window_h) ∧
    (frame_body inp k (run_frames inp k 0 (init_loop_state env size)).2).1[6]? =
      some (Ev.queryWindowSize (inp.win_size k).1 (inp.win_size k).2) ∧
    (∃ rest, (glraster_main args env inp fuel).2.2 =
      (run_frames inp k 0 (init_loop_state env size)).1 ++
        (frame_body inp k (run_frames inp k 0 (init_loop_state env size)).2).1 ++ rest) := by
  refine ⟨?_, rfl, rfl, rfl, ?_⟩
  · cases Nat.eq_zero_or_pos k with
    | inl h0 =>
        subst h0
        simp [run_frames, init_loop_state]
    | inr hpos =>
        have h := run_frames_window_dims inp k 0 (init_loop_state env size) hpos
        simp only [Nat.zero_add] at h
        rw [if_neg (by omega)]
        exact h
  · have hmain : glraster_main args env inp fuel =
        (0, sevs, (run_loop inp fuel 0 (init_loop_state env size)).1 ++ shutdown_events) := by
      unfold glraster_main
      rw [hstart]
    have hrl := run_loop_frames inp k 0 (init_loop_state env size) fuel
      (fun i hi => by simpa using hpre i hi) (by omega)
    obtain ⟨f2, hf2⟩ : ∃ f2, fuel - k = f2 + 1 := ⟨fuel - k - 1, by omega⟩
    rw [hf2] at hrl
    simp only [Nat.zero_add] at hrl
    by_cases hik : inp.interrupt k = true
    · rw [run_loop_step_interrupt inp k _ f2 hsc hik] at hrl
      refine ⟨[Ev.printInfo "[INFO] - CTRL-C detected..."] ++ shutdown_events, ?_⟩
      rw [hmain]
      simp only [hrl]
      simp [List.append_assoc]
    · have hik2 : inp.interrupt k = false := by simpa using hik
      rw [run_loop_step_continue inp k _ f2 hsc hik2] at hrl
      refine ⟨(run_loop inp f2 (k + 1)
        (frame_body inp k (run_frames inp k 0 (init_loop_state env size)).2).2).1 ++
        shutdown_events, ?_⟩
      rw [hmain]
      simp only [hrl]
      simp [List.append_assoc]

/-- Frame-loop inputs for the C10 witness: `glfwGetWindowSize` reports a
different size each frame, so the lag is observable. -/
def inp_resizing : LoopInputs :=
  { ui_offset := fun _ => 0
    win_size := fun i => (100 + (i : Int), 200 + (i : Int))
    interrupt := fun _ => false
    should_close := fun _ => false
    read_ok := fun _ => true }

/-- Witness for C10: in frame 1 the display is given the size queried in
frame 0, `(100, 200)`, not the startup size `(1024, 768)`. -/
theorem viewport_dims_lag_one_witness :
    ((run_frames inp_resizing 1 0 (init_loop_state env_ok 512)).2.window_w,
     (run_frames inp_resizing 1 0 (init_loop_state env_ok 512)).2.window_h) =
      inp_resizing.win_size 0 := by
  have h := viewport_dims_lag_one [CliOpt.optFile "a"] env_ok inp_resizing 2 1 "a" 512
    [StartEv.createWindow, StartEv.fileReaderInit "a" 512,
     StartEv.printInfo "[INFO] - Initially read bytes into the buffer",
     StartEv.displayInit,
     StartEv.printInfo "[INFO] - Initialized program and display"]
    (by decide) (fun i hi => ⟨rfl, rfl⟩) rfl (by omega)
  have h1 := h.1
  rw [if_neg (by omega)] at h1
  exact h1
